import Mathlib

/-!
# Verification of the dx2 `ReflectionTable` core

A shallow embedding of the reflection-table code of `dials/dx2`
(`src/dx2/reflection.cxx`, `src/dx2/h5/h5write.cxx`,
`src/dx2/h5/h5read_processed.cxx`) together with proofs of the
specification's claims about it.

Modelling conventions:

* Machine `uint64_t` values are `Nat`, with an explicit `% 2 ^ 64`
  where the C++ arithmetic can wrap (the `max_experiment_id++`
  post-increment).
* Element payloads are stored as raw `Int` values: for the integer
  element types this is the integer value, for `double` it stands for
  the 64-bit pattern.  All of the embedded operations only move
  payloads around (no arithmetic on them), so this is faithful.
* The pseudo-random identifier source (`ersatz_uuid4`, a
  `std::random_device` stream) is modelled as an explicit `String`
  argument supplied to every operation that draws a fresh identifier.
* Fallible C++ code (throwing, or undefined behaviour) is modelled
  with `Except` / `Option`.
* The HDF5 storage adapter's file-handle mechanics (open/create/close,
  group traversal, path prefixes) are external collaborators per the
  specification and are elided: a file is a value holding the dataset
  entries keyed by column name plus the two metadata attributes.
-/

/-- The closed set of element types handled by the type dispatcher.
Modelled from the spec: the dispatch registry lives in a header that is
not part of the sources here; per the spec it covers at minimum
32/64-bit signed and unsigned integers and double-precision floats. -/
inductive ElementType : Type
  | i32
  | u32
  | i64
  | u64
  | f64
deriving DecidableEq

/-- One typed column: name, element-type tag, shape and flat row-major
buffer.  Modelled from the spec: the `TypedColumn<T>` template lives in
`reflection.hpp`, which is not part of the sources here; per the spec a
typed column is `{ name, type_tag, shape, data }` with
`data.length == product(shape)` and `shape[0]` the row count, stored
exactly as constructed (no shape normalisation on construction). -/
structure TypedColumn : Type where
  name : String
  type_tag : ElementType
  shape : List Nat
  data : List Int
deriving DecidableEq

/-- Per-row stride of a column: the product of all trailing (non-row)
dimensions. -/
def TypedColumn.rowStride (c : TypedColumn) : Nat :=
  (c.shape.drop 1).foldl (· * ·) 1

/-- The flat slice of the buffer holding row `i`. -/
def TypedColumn.rowSlice (c : TypedColumn) (i : Nat) : List Int :=
  (c.data.drop (i * c.rowStride)).take c.rowStride

/-- Modelled from the spec: `clone_filtered(row_indices)` of
`reflection.hpp` (not part of the sources here) builds a new column
containing exactly the specified rows in the given order, preserving
the per-row stride. -/
def TypedColumn.clone_filtered (c : TypedColumn) (rows : List Nat) :
    TypedColumn :=
  { c with
      shape := rows.length :: c.shape.drop 1,
      data := (rows.map c.rowSlice).flatten }

/-- The reflection table state: columns in insertion order, the two
metadata lists, the `uint64_t` id counter and the remembered file path.
The counter's in-class initialiser is in `reflection.hpp` (not part of
the sources here); modelled from the spec, the first generated
experiment id is `0`, so the counter starts at `0`. -/
structure ReflectionTable : Type where
  data : List TypedColumn
  experiment_ids : List Nat
  identifiers : List String
  max_experiment_id : Nat := 0
  h5_filepath : String := ""
deriving DecidableEq

/-- Embeds `ReflectionTable::generate_new_attributes` of `reflection.cxx`:
post-increment of the `uint64_t` counter yields the id, a fresh
identifier is drawn (here: the explicit `uuid` argument standing for
the `ersatz_uuid4()` call), and both are appended to their lists. -/
def ReflectionTable.generate_new_attributes (t : ReflectionTable)
    (uuid : String) : (Nat × String) × ReflectionTable :=
  let experiment_id := t.max_experiment_id
  ((experiment_id, uuid),
   { t with
       max_experiment_id := (t.max_experiment_id + 1) % 2 ^ 64,
       experiment_ids := t.experiment_ids ++ [experiment_id],
       identifiers := t.identifiers ++ [uuid] })

/-- The default constructor `ReflectionTable()` of `reflection.cxx`:
default-initialised fields, then one `generate_new_attributes()` call. -/
def ReflectionTable.mkDefault (uuid : String) : ReflectionTable :=
  (ReflectionTable.generate_new_attributes
    { data := [], experiment_ids := [], identifiers := [] } uuid).2

/-- Embeds `ReflectionTable::set_experiment_ids` of `reflection.cxx`: the list
is assigned, then the counter is set to `*std::max_element(...)` over
it.  For an empty list `std::max_element` returns the past-the-end
iterator and dereferencing it is undefined behaviour; the total
embedding returns `none` there. -/
def ReflectionTable.set_experiment_ids (t : ReflectionTable)
    (ids : List Nat) : Option ReflectionTable :=
  match ids with
  | [] => none
  | x :: xs =>
      some { t with experiment_ids := ids,
                    max_experiment_id := xs.foldl max x }

/-- Embeds `ReflectionTable::get_row_count` of `reflection.cxx`: `0` for a
column-less table, otherwise the first dimension of the first column. -/
def ReflectionTable.get_row_count (t : ReflectionTable) : Nat :=
  match t.data with
  | [] => 0
  | c :: _ => c.shape.headD 0

/-- Embeds `ReflectionTable::select(const std::vector<size_t> &)` of
`reflection.cxx`: a default-constructed table (hence one fresh
metadata pair, drawn from `uuid`), the source's file path, every column
cloned through the index list, and the source's metadata lists assigned
over the freshly generated pair. -/
def ReflectionTable.select_rows (t : ReflectionTable) (uuid : String)
    (selected_rows : List Nat) : ReflectionTable :=
  let filtered := ReflectionTable.mkDefault uuid
  { filtered with
      h5_filepath := t.h5_filepath,
      data := t.data.map (fun c => c.clone_filtered selected_rows),
      experiment_ids := t.experiment_ids,
      identifiers := t.identifiers }

/-- The index-accumulation loop of
`ReflectionTable::select(const std::vector<bool> &)` of
`reflection.cxx`: for `i` in `[0, mask.size())`, push `i` when
`mask[i]` is set. -/
def selectedRowsOfMask (mask : List Bool) : List Nat :=
  (List.range mask.length).filter (fun i => mask.getD i false)

/-- Embeds `ReflectionTable::select(const std::vector<bool> &)` of
`reflection.cxx`: build the index list from the mask and delegate to
the index-list overload. -/
def ReflectionTable.select_mask (t : ReflectionTable) (uuid : String)
    (mask : List Bool) : ReflectionTable :=
  t.select_rows uuid (selectedRowsOfMask mask)

/-- Modelled from the spec: the templated
`select<T>(column_name, predicate)` lives in `reflection.hpp` (not part
of the sources here).  Per the spec it fails with `MissingColumn` when
the column is absent, with `UnsupportedType` when the column's element
type differs from the requested tag, and otherwise evaluates the
predicate on every row in ascending order and delegates to the
index-list selection. -/
def ReflectionTable.select_pred (t : ReflectionTable) (uuid : String)
    (column_name : String) (tag : ElementType)
    (pred : List Int → Bool) : Except String ReflectionTable :=
  match t.data.find? (fun c => c.name = column_name) with
  | none => .error ("MissingColumn: " ++ column_name)
  | some c =>
      if c.type_tag = tag then
        .ok (t.select_rows uuid
          ((List.range (c.shape.headD 0)).filter
            (fun i => pred (c.rowSlice i))))
      else
        .error ("UnsupportedType: " ++ column_name)

/-- One on-disk dataset: on-disk element type, shape and flat buffer. -/
structure H5Dataset : Type where
  type_tag : ElementType
  shape : List Nat
  data : List Int
deriving DecidableEq

/-- An HDF5 file's reserved reflection group, as the narrow storage
adapter interface exposes it: dataset entries keyed by column name in
creation order, plus the two group attributes.  The adapter's
open/create/group-traversal mechanics are external collaborators and
elided. -/
structure H5File : Type where
  datasets : List (String × H5Dataset)
  experiment_ids : List Nat
  identifiers : List String
deriving DecidableEq

/-- Embeds `write_experiment_metadata` of `h5write.cxx`: throws when either
the id list or the identifier list is empty, otherwise writes the two
attributes and succeeds. -/
def write_experiment_metadata (experiment_ids : List Nat)
    (identifiers : List String) : Except String Unit :=
  if experiment_ids.isEmpty || identifiers.isEmpty then
    .error "Experiment IDs and identifiers must not be empty."
  else
    .ok ()

/-- The `write_col` lambda of `ReflectionTable::write` of
`reflection.cxx`: the dataset written for one column.  A 2-dimensional
shape whose second dimension is `1` is collapsed to its first
dimension; every other shape is written unchanged; the raw buffer is
written as stored.  (The `as<T>` recovery cast always succeeds here:
the column's tag is by construction consistent with its payload.) -/
def write_col (c : TypedColumn) : String × H5Dataset :=
  (c.name,
   { type_tag := c.type_tag,
     shape :=
       if c.shape.length = 2 ∧ c.shape.getD 1 0 = 1 then
         [c.shape.headD 0]
       else
         c.shape,
     data := c.data })

/-- Embeds `ReflectionTable::write` of `reflection.cxx`, writing into a fresh
file (the create-or-open and group-creation steps of the external
adapter succeed on a fresh destination; the two advisory warnings are
non-fatal and have no effect on the produced file).  The metadata write
throws on empty lists, and every column — all element types being in
the dispatcher's closed set — is written through `write_col`. -/
def ReflectionTable.write (t : ReflectionTable) :
    Except String H5File :=
  match write_experiment_metadata t.experiment_ids t.identifiers with
  | .error e => .error e
  | .ok _ =>
      .ok { datasets := t.data.map write_col,
            experiment_ids := t.experiment_ids,
            identifiers := t.identifiers }

/-- The dataset loop of the file constructor
`ReflectionTable(const std::string &)` of `reflection.cxx`, given the
metadata already read from the group and, for each enumerated dataset
path, the outcome of opening/dispatching/reading it (`.error` stands
for any of: the dataset cannot be opened, its on-disk type is not in
the dispatcher's closed set, or reading throws).  A failed dataset is
logged and skipped; a successful one becomes a column. -/
def ReflectionTable.load (meta_ids : List Nat)
    (meta_identifiers : List String)
    (entries : List (String × Except String H5Dataset)) :
    ReflectionTable :=
  { data := entries.filterMap (fun e =>
      match e.2 with
      | .ok d => some { name := e.1, type_tag := d.type_tag,
                        shape := d.shape, data := d.data }
      | .error _ => none),
    experiment_ids := meta_ids,
    identifiers := meta_identifiers }

/-- The file constructor `ReflectionTable(const std::string &)` of
`reflection.cxx` applied to a well-formed file: the group's attributes
supply the metadata and every enumerated dataset reads back
successfully. -/
def readTable (f : H5File) : ReflectionTable :=
  ReflectionTable.load f.experiment_ids f.identifiers
    (f.datasets.map (fun e => (e.1, Except.ok e.2)))

/-! ## Helper lemmas -/

/-- Unfolding lemma: the accumulated `std::max_element` value is a
member of the (non-empty) scanned list. -/
lemma foldl_max_mem (xs : List Nat) (x : Nat) :
    xs.foldl max x = x ∨ xs.foldl max x ∈ xs := by
  induction xs generalizing x with
  | nil => exact Or.inl rfl
  | cons y ys ih =>
      have hstep : (y :: ys).foldl max x = ys.foldl max (max x y) := rfl
      rcases ih (max x y) with h | h
      · rcases Nat.le_total x y with hxy | hxy
        · refine Or.inr ?_
          rw [hstep, h, Nat.max_eq_right hxy]
          exact List.mem_cons_self y ys
        · refine Or.inl ?_
          rw [hstep, h, Nat.max_eq_left hxy]
      · refine Or.inr ?_
        rw [hstep]
        exact List.mem_cons_of_mem y h

/-- Unfolding lemma: the accumulated `std::max_element` value bounds
the seed and every scanned element. -/
lemma le_foldl_max (xs : List Nat) (x : Nat) :
    x ≤ xs.foldl max x ∧ ∀ i ∈ xs, i ≤ xs.foldl max x := by
  induction xs generalizing x with
  | nil => exact ⟨Nat.le_refl x, by simp⟩
  | cons y ys ih =>
      obtain ⟨h1, h2⟩ := ih (max x y)
      refine ⟨Nat.le_trans (Nat.le_max_left x y) h1, ?_⟩
      intro i hi
      rcases List.mem_cons.mp hi with rfl | hi
      · exact Nat.le_trans (Nat.le_max_right x i) h1
      · exact h2 i hi

/-- Following the spec's words: the ascending index list of exactly
those positions `i` with `mask[i] == true`. -/
def maskTrueIndices : List Bool → List Nat
  | [] => []
  | b :: bs => (if b then [0] else []) ++ (maskTrueIndices bs).map (· + 1)

/-- Unfolding lemma for the mask-to-index loop. -/
lemma selectedRowsOfMask_cons (b : Bool) (bs : List Bool) :
    selectedRowsOfMask (b :: bs) =
      (if b then [0] else []) ++ (selectedRowsOfMask bs).map (· + 1) := by
  have hfun : ((fun i => (b :: bs).getD i false) ∘ Nat.succ) =
      (fun i => bs.getD i false) := by
    funext i
    simp [List.getD_cons_succ]
  have hmap : List.map Nat.succ
      (List.filter (fun i => bs.getD i false) (List.range bs.length)) =
      List.map (· + 1)
      (List.filter (fun i => bs.getD i false) (List.range bs.length)) := by
    simp [Nat.succ_eq_add_one]
  have h0 : (b :: bs).getD 0 false = b := rfl
  unfold selectedRowsOfMask
  rw [List.length_cons, List.range_succ_eq_map, List.filter_cons,
    List.filter_map, hfun, hmap, h0]
  cases b <;> simp

/-- The mask-to-index loop computes exactly the spec's ascending list
of true positions. -/
lemma selectedRowsOfMask_eq_maskTrueIndices (mask : List Bool) :
    selectedRowsOfMask mask = maskTrueIndices mask := by
  induction mask with
  | nil => rfl
  | cons b bs ih =>
      rw [selectedRowsOfMask_cons, ih]
      rfl

/-- Loading a list of entries that all read back successfully yields
exactly the corresponding columns, in order. -/
lemma load_all_ok (meta_ids : List Nat) (meta_identifiers : List String)
    (ds : List (String × H5Dataset)) :
    ReflectionTable.load meta_ids meta_identifiers
        (ds.map (fun e => (e.1, Except.ok e.2))) =
      { data := ds.map (fun e =>
          { name := e.1, type_tag := e.2.type_tag, shape := e.2.shape,
            data := e.2.data }),
        experiment_ids := meta_ids,
        identifiers := meta_identifiers } := by
  unfold ReflectionTable.load
  simp only [ReflectionTable.mk.injEq, and_true]
  induction ds with
  | nil => rfl
  | cons d ds ih =>
      simp only [List.map_cons, List.filterMap_cons] at ih ⊢
      rw [ih]

/-! ## Claim theorems -/

/-- C9: in the total embedding of `set_experiment_ids`, the error
branch (the dereference of `std::max_element`'s past-the-end iterator)
is reachable exactly when the input id list is empty, and unreachable
for every non-empty list. -/
theorem C9_set_experiment_ids_error_iff_empty (t : ReflectionTable)
    (ids : List Nat) :
    t.set_experiment_ids ids = none ↔ ids = [] := by
  cases ids <;> simp [ReflectionTable.set_experiment_ids]

/-- A concrete table (the state a default-constructed table is in)
used to exhibit C3's failure. -/
def tableC3 : ReflectionTable :=
  { data := [], experiment_ids := [0], identifiers := ["a"],
    max_experiment_id := 1 }

/-- C3 counterexample: bulk-setting the experiment ids does NOT leave
the `max_experiment_id` counter unchanged — on a table whose counter is
`1`, `set_experiment_ids [5]` sets the counter to `5`. -/
theorem C3_counterexample_counter_changes :
    (tableC3.set_experiment_ids [5]).map ReflectionTable.max_experiment_id
        = some 5 ∧
    tableC3.max_experiment_id = 1 := by
  decide

/-- C3 (amended): for every non-empty id list, `set_experiment_ids`
replaces the `experiment_ids` list and sets `max_experiment_id` to the
maximum element of the new list (so the counter discipline is still not
maintained: the next generated id equals that maximum and is reused);
columns, identifiers and the file path are untouched. -/
theorem C3_amended_set_experiment_ids (t : ReflectionTable)
    (ids : List Nat) (h : ids ≠ []) :
    ∃ t', t.set_experiment_ids ids = some t' ∧
      t'.experiment_ids = ids ∧
      t'.max_experiment_id ∈ ids ∧
      (∀ i ∈ ids, i ≤ t'.max_experiment_id) ∧
      t'.identifiers = t.identifiers ∧
      t'.data = t.data ∧
      t'.h5_filepath = t.h5_filepath := by
  match ids, h with
  | x :: xs, _ =>
      refine ⟨_, rfl, rfl, ?_, ?_, rfl, rfl, rfl⟩
      · show xs.foldl max x ∈ x :: xs
        rcases foldl_max_mem xs x with h1 | h1
        · rw [h1]; exact List.mem_cons_self x xs
        · exact List.mem_cons_of_mem x h1
      · show ∀ i ∈ x :: xs, i ≤ xs.foldl max x
        intro i hi
        rcases List.mem_cons.mp hi with rfl | hi
        · exact (le_foldl_max xs i).1
        · exact (le_foldl_max xs x).2 i hi

/-- C3 witness: the amended statement evaluated on the concrete table
and id list of the counterexample. -/
theorem C3_amended_set_experiment_ids_witness :
    ∃ t', tableC3.set_experiment_ids [5] = some t' ∧
      t'.experiment_ids = [5] ∧
      t'.max_experiment_id ∈ [5] ∧
      (∀ i ∈ [5], i ≤ t'.max_experiment_id) ∧
      t'.identifiers = tableC3.identifiers ∧
      t'.data = tableC3.data ∧
      t'.h5_filepath = tableC3.h5_filepath :=
  C3_amended_set_experiment_ids tableC3 [5] (by decide)

/-- A concrete table whose `uint64_t` id counter sits at the largest
representable value, reachable through
`set_experiment_ids [2 ^ 64 - 1]`. -/
def tableC4 : ReflectionTable :=
  { data := [], experiment_ids := [2 ^ 64 - 1], identifiers := ["a"],
    max_experiment_id := 2 ^ 64 - 1 }

/-- C4 counterexample: at counter value `2 ^ 64 - 1` the `uint64_t`
post-increment wraps, so two successive `generate_new_attributes`
calls return ids `2 ^ 64 - 1` and then `0` — not strictly increasing —
and the counter is not incremented by one. -/
theorem C4_counterexample_wraparound :
    ¬ ((tableC4.generate_new_attributes "u1").1.1 <
        ((tableC4.generate_new_attributes "u1").2.generate_new_attributes
          "u2").1.1) ∧
    (tableC4.generate_new_attributes "u1").2.max_experiment_id ≠
      tableC4.max_experiment_id + 1 := by
  decide

/-- C4 (amended): whenever the counter is below `2 ^ 64 - 1` (so the
`uint64_t` post-increment cannot wrap within two calls),
`generate_new_attributes` returns the pre-call counter value paired
with the freshly generated identifier, increments the counter by one,
appends both to their lists, and a second call returns a strictly
larger id. -/
theorem C4_amended_generate_new_attributes (t : ReflectionTable)
    (u1 u2 : String) (h : t.max_experiment_id < 2 ^ 64 - 1) :
    (t.generate_new_attributes u1).1.1 = t.max_experiment_id ∧
    (t.generate_new_attributes u1).1.2 = u1 ∧
    (t.generate_new_attributes u1).2.max_experiment_id =
      t.max_experiment_id + 1 ∧
    (t.generate_new_attributes u1).2.experiment_ids =
      t.experiment_ids ++ [t.max_experiment_id] ∧
    (t.generate_new_attributes u1).2.identifiers =
      t.identifiers ++ [u1] ∧
    (t.generate_new_attributes u1).1.1 <
      ((t.generate_new_attributes u1).2.generate_new_attributes u2).1.1 := by
  have hm : (t.max_experiment_id + 1) % 2 ^ 64 = t.max_experiment_id + 1 :=
    Nat.mod_eq_of_lt (by omega)
  refine ⟨rfl, rfl, hm, rfl, rfl, ?_⟩
  show t.max_experiment_id < (t.max_experiment_id + 1) % 2 ^ 64
  omega

/-- C4 witness: the amended statement evaluated on a freshly
default-constructed table (counter `1`). -/
theorem C4_amended_generate_new_attributes_witness :
    ((ReflectionTable.mkDefault "u0").generate_new_attributes "u1").1.1 =
      (ReflectionTable.mkDefault "u0").max_experiment_id ∧
    ((ReflectionTable.mkDefault "u0").generate_new_attributes "u1").1.2 =
      "u1" ∧
    ((ReflectionTable.mkDefault "u0").generate_new_attributes
        "u1").2.max_experiment_id =
      (ReflectionTable.mkDefault "u0").max_experiment_id + 1 ∧
    ((ReflectionTable.mkDefault "u0").generate_new_attributes
        "u1").2.experiment_ids =
      (ReflectionTable.mkDefault "u0").experiment_ids ++
        [(ReflectionTable.mkDefault "u0").max_experiment_id] ∧
    ((ReflectionTable.mkDefault "u0").generate_new_attributes
        "u1").2.identifiers =
      (ReflectionTable.mkDefault "u0").identifiers ++ ["u1"] ∧
    ((ReflectionTable.mkDefault "u0").generate_new_attributes "u1").1.1 <
      (((ReflectionTable.mkDefault "u0").generate_new_attributes
          "u1").2.generate_new_attributes "u2").1.1 :=
  C4_amended_generate_new_attributes (ReflectionTable.mkDefault "u0")
    "u1" "u2" (by decide)

/-- C10: every table returned by the index-list `select` is built from
a default-constructed table, whose single `generate_new_attributes`
call leaves the counter at `1`; the source's `experiment_ids` are then
assigned directly without touching the counter.  So the result's
counter is `1` regardless of the source's counter, and a subsequent
`generate_new_attributes` on the filtered table returns id `1` — even
when `1` already occurs among the copied `experiment_ids`. -/
theorem C10_select_result_counter_is_one (t : ReflectionTable)
    (uuid u2 : String) (rows : List Nat) :
    (t.select_rows uuid rows).max_experiment_id = 1 ∧
    ((t.select_rows uuid rows).generate_new_attributes u2).1.1 = 1 ∧
    (t.select_rows uuid rows).experiment_ids = t.experiment_ids :=
  ⟨rfl, rfl, rfl⟩

/-- C7: during construction from storage, a failure confined to one
enumerated dataset only removes that dataset's column: the table loaded
with the failing entry present equals the table loaded with it absent,
so every other dataset is still processed and construction succeeds
(the loader is total). -/
theorem C7_load_skips_failed_dataset (meta_ids : List Nat)
    (meta_identifiers : List String)
    (es1 es2 : List (String × Except String H5Dataset))
    (p err : String) :
    ReflectionTable.load meta_ids meta_identifiers
        (es1 ++ (p, Except.error err) :: es2) =
      ReflectionTable.load meta_ids meta_identifiers (es1 ++ es2) := by
  unfold ReflectionTable.load
  simp [List.filterMap_append]

/-- C8: writing a table whose `experiment_ids` or `identifiers` list is
empty fails fatally with the metadata error, and for a table with at
least one entry in each list the metadata-attribute write step
succeeds. -/
theorem C8_write_metadata_requirements (t : ReflectionTable) :
    ((t.experiment_ids = [] ∨ t.identifiers = []) →
      t.write =
        Except.error "Experiment IDs and identifiers must not be empty.") ∧
    (t.experiment_ids ≠ [] → t.identifiers ≠ [] →
      write_experiment_metadata t.experiment_ids t.identifiers =
        Except.ok ()) := by
  constructor
  · rintro (h | h) <;>
      simp [ReflectionTable.write, write_experiment_metadata, h]
  · intro h1 h2
    simp [write_experiment_metadata, h1, h2]

/-- A concrete table with empty metadata lists, for C8's fatal case. -/
def tableC8empty : ReflectionTable :=
  { data := [], experiment_ids := [], identifiers := [] }

/-- A concrete table with one metadata pair, for C8's success case. -/
def tableC8ok : ReflectionTable :=
  { data := [], experiment_ids := [0], identifiers := ["a"],
    max_experiment_id := 1 }

/-- C8 witness: both branches evaluated on concrete tables. -/
theorem C8_write_metadata_requirements_witness :
    tableC8empty.write =
      Except.error "Experiment IDs and identifiers must not be empty." ∧
    write_experiment_metadata tableC8ok.experiment_ids
      tableC8ok.identifiers = Except.ok () :=
  ⟨(C8_write_metadata_requirements tableC8empty).1 (Or.inl rfl),
   (C8_write_metadata_requirements tableC8ok).2 (by decide) (by decide)⟩

/-- C5: on a mask whose length is the table's row count (as on any
mask), the boolean-mask overload of `select` returns exactly the table
the index-list overload returns on the ascending list of the positions
at which the mask holds `true`. -/
theorem C5_select_mask_refines_select_rows (t : ReflectionTable)
    (uuid : String) (mask : List Bool)
    (h : mask.length = t.get_row_count) :
    t.select_mask uuid mask = t.select_rows uuid (maskTrueIndices mask) := by
  unfold ReflectionTable.select_mask
  rw [selectedRowsOfMask_eq_maskTrueIndices]

/-- A concrete two-row table for C5's witness. -/
def tableC5 : ReflectionTable :=
  { data := [{ name := "x", type_tag := ElementType.i32,
               shape := [2, 1], data := [10, 20] }],
    experiment_ids := [0], identifiers := ["a"],
    max_experiment_id := 1 }

/-- C5 witness: the refinement evaluated on a concrete table and mask
of matching length. -/
theorem C5_select_mask_refines_select_rows_witness :
    tableC5.select_mask "u" [true, false] =
      tableC5.select_rows "u" (maskTrueIndices [true, false]) :=
  C5_select_mask_refines_select_rows tableC5 "u" [true, false] (by decide)

/-- C6: every selection form — index list, boolean mask, and (when it
succeeds) the typed predicate form — returns a table whose
`experiment_ids` and `identifiers` are element-for-element the source
table's.  The C++ methods are `const` and the embedding is pure, so the
source table is unmodified by construction. -/
theorem C6_selection_preserves_metadata (t : ReflectionTable)
    (uuid : String) :
    (∀ rows : List Nat,
      (t.select_rows uuid rows).experiment_ids = t.experiment_ids ∧
      (t.select_rows uuid rows).identifiers = t.identifiers) ∧
    (∀ mask : List Bool,
      (t.select_mask uuid mask).experiment_ids = t.experiment_ids ∧
      (t.select_mask uuid mask).identifiers = t.identifiers) ∧
    (∀ (column_name : String) (tag : ElementType)
        (pred : List Int → Bool) (t' : ReflectionTable),
      t.select_pred uuid column_name tag pred = Except.ok t' →
      t'.experiment_ids = t.experiment_ids ∧
      t'.identifiers = t.identifiers) := by
  refine ⟨fun rows => ⟨rfl, rfl⟩, fun mask => ⟨rfl, rfl⟩, ?_⟩
  intro column_name tag pred t' h
  unfold ReflectionTable.select_pred at h
  split at h
  · cases h
  · split at h
    · cases h
      exact ⟨rfl, rfl⟩
    · cases h

/-- A concrete one-column table for C6's witness. -/
def tableC6 : ReflectionTable :=
  { data := [{ name := "c", type_tag := ElementType.i32,
               shape := [2, 1], data := [7, 9] }],
    experiment_ids := [3], identifiers := ["x"],
    max_experiment_id := 4 }

/-- The table C6's witness predicate selection returns. -/
def tableC6sel : ReflectionTable :=
  tableC6.select_rows "u"
    ((List.range 2).filter (fun i => (fun _ => true) (TypedColumn.rowSlice
      { name := "c", type_tag := ElementType.i32, shape := [2, 1],
        data := [7, 9] } i)))

/-- C6 witness: the predicate-form branch evaluated on a concrete
table, tag and predicate. -/
theorem C6_selection_preserves_metadata_witness :
    tableC6sel.experiment_ids = tableC6.experiment_ids ∧
    tableC6sel.identifiers = tableC6.identifiers :=
  (C6_selection_preserves_metadata tableC6 "u").2.2 "c" ElementType.i32
    (fun _ => true) tableC6sel rfl

/-- C2: the file produced by a successful `write` holds, per column in
order, the column's raw buffer under the column's name; the written
shape is `[shape[0]]` for a rank-2 shape whose second dimension is
exactly `1`, and the unchanged shape for every other shape. -/
theorem C2_write_shape_normalisation (t : ReflectionTable) (f : H5File)
    (h : t.write = Except.ok f) :
    f.datasets.map Prod.fst = t.data.map TypedColumn.name ∧
    f.datasets.map (fun e => e.2.data) = t.data.map TypedColumn.data ∧
    f.datasets.map (fun e => e.2.shape) =
      t.data.map (fun c =>
        if c.shape.length = 2 ∧ c.shape.getD 1 0 = 1 then
          [c.shape.headD 0]
        else
          c.shape) := by
  unfold ReflectionTable.write at h
  cases hw : write_experiment_metadata t.experiment_ids t.identifiers with
  | error e => rw [hw] at h; cases h
  | ok u =>
      rw [hw] at h
      cases h
      refine ⟨?_, ?_, ?_⟩ <;> rw [List.map_map] <;> rfl

/-- A concrete table with a rank-2, second-dimension-1 column plus a
genuinely rank-2 column, for C2's witness. -/
def tableC2 : ReflectionTable :=
  { data := [{ name := "a", type_tag := ElementType.i32,
               shape := [3, 1], data := [1, 2, 3] },
             { name := "b", type_tag := ElementType.f64,
               shape := [2, 3], data := [4, 5, 6, 7, 8, 9] }],
    experiment_ids := [0], identifiers := ["a0"],
    max_experiment_id := 1 }

/-- The file C2's witness write produces. -/
def fileC2 : H5File :=
  { datasets := [("a", { type_tag := ElementType.i32, shape := [3],
                         data := [1, 2, 3] }),
                 ("b", { type_tag := ElementType.f64, shape := [2, 3],
                         data := [4, 5, 6, 7, 8, 9] })],
    experiment_ids := [0], identifiers := ["a0"] }

/-- C2 witness: the normalisation evaluated on a concrete write. -/
theorem C2_write_shape_normalisation_witness :
    fileC2.datasets.map Prod.fst = tableC2.data.map TypedColumn.name ∧
    fileC2.datasets.map (fun e => e.2.data) =
      tableC2.data.map TypedColumn.data ∧
    fileC2.datasets.map (fun e => e.2.shape) =
      tableC2.data.map (fun c =>
        if c.shape.length = 2 ∧ c.shape.getD 1 0 = 1 then
          [c.shape.headD 0]
        else
          c.shape) :=
  C2_write_shape_normalisation tableC2 fileC2 rfl

/-- C1 (amended): reading back the file a successful `write` produced
yields a table with the same column names in the same order, the same
element types, the exact same element-wise buffer values (exactness
implies the spec's 1e-6 float tolerance), and the same
`experiment_ids` and `identifiers`; a column's shape is preserved
unless it had rank 2 with second dimension exactly 1, in which case it
reads back with the rank-1 shape holding only its first dimension. -/
theorem C1_roundtrip_amended (t : ReflectionTable) (f : H5File)
    (h : t.write = Except.ok f) :
    (readTable f).data.map TypedColumn.name =
      t.data.map TypedColumn.name ∧
    (readTable f).data.map TypedColumn.type_tag =
      t.data.map TypedColumn.type_tag ∧
    (readTable f).data.map TypedColumn.data =
      t.data.map TypedColumn.data ∧
    (readTable f).data.map TypedColumn.shape =
      t.data.map (fun c =>
        if c.shape.length = 2 ∧ c.shape.getD 1 0 = 1 then
          [c.shape.headD 0]
        else
          c.shape) ∧
    (readTable f).experiment_ids = t.experiment_ids ∧
    (readTable f).identifiers = t.identifiers := by
  unfold ReflectionTable.write at h
  cases hw : write_experiment_metadata t.experiment_ids t.identifiers with
  | error e => rw [hw] at h; cases h
  | ok u =>
      rw [hw] at h
      cases h
      unfold readTable
      rw [load_all_ok]
      refine ⟨?_, ?_, ?_, ?_, rfl, rfl⟩ <;>
        simp only [List.map_map] <;> rfl

/-- A concrete table with a rank-2, second-dimension-1 column, for
C1's counterexample and witness. -/
def tableC1 : ReflectionTable :=
  { data := [{ name := "c", type_tag := ElementType.f64,
               shape := [2, 1], data := [3, 7] }],
    experiment_ids := [0], identifiers := ["id0"],
    max_experiment_id := 1 }

/-- The file C1's write of `tableC1` produces. -/
def fileC1 : H5File :=
  { datasets := [("c", { type_tag := ElementType.f64, shape := [2],
                         data := [3, 7] })],
    experiment_ids := [0], identifiers := ["id0"] }

/-- C1 counterexample: the round trip does NOT preserve all shapes —
the `[2, 1]` column of `tableC1` is written successfully but reads
back with shape `[2]`. -/
theorem C1_roundtrip_counterexample :
    tableC1.write = Except.ok fileC1 ∧
    (readTable fileC1).data.map TypedColumn.shape = [[2]] ∧
    tableC1.data.map TypedColumn.shape = [[2, 1]] ∧
    ([[2]] : List (List Nat)) ≠ [[2, 1]] :=
  ⟨rfl, rfl, rfl, by decide⟩

/-- C1 witness: the amended round trip evaluated on the concrete
table. -/
theorem C1_roundtrip_amended_witness :
    (readTable fileC1).data.map TypedColumn.name =
      tableC1.data.map TypedColumn.name ∧
    (readTable fileC1).data.map TypedColumn.type_tag =
      tableC1.data.map TypedColumn.type_tag ∧
    (readTable fileC1).data.map TypedColumn.data =
      tableC1.data.map TypedColumn.data ∧
    (readTable fileC1).data.map TypedColumn.shape =
      tableC1.data.map (fun c =>
        if c.shape.length = 2 ∧ c.shape.getD 1 0 = 1 then
          [c.shape.headD 0]
        else
          c.shape) ∧
    (readTable fileC1).experiment_ids = tableC1.experiment_ids ∧
    (readTable fileC1).identifiers = tableC1.identifiers :=
  C1_roundtrip_amended tableC1 fileC1 rfl
